import Mathlib

/-!
Verification of the HRSBench scoring engine.

Shallow embedding of the scoring code:
* `src/compositions/calc_spatial_relation_acc.py` (spatial relation scorer),
* `src/compositions/calc_size_comp_acc.py` (size comparison scorer),
* `src/hrsbench/counting/calc_counting_acc.py` (counting scorer),
* `src/colors/hue_based_color_classifier.py` (hue based color classifier).

Python floats are modelled as rationals (ℚ), Python ints as ℤ.
Python dicts keyed by object id or image id are modelled as association
lists in insertion order; a raised KeyError or IndexError is modelled by
`Option` (a `none` result of a scoring function means the Python code
raises on that input).
-/

/-- An axis-aligned box `(xmin, ymin, xmax, ymax)`, origin top left. -/
structure Box where
  xmin : ℚ
  ymin : ℚ
  xmax : ℚ
  ymax : ℚ
deriving DecidableEq, Repr

/-- Embedding of `_check_right` (calc_spatial_relation_acc.py:92):
true iff `xmax1 > xmax2`. -/
def check_right (obj_1 obj_2 : Box) : Bool :=
  obj_1.xmax > obj_2.xmax

/-- Embedding of `_check_left` (calc_spatial_relation_acc.py:105):
true iff `xmin1 < xmin2`. -/
def check_left (obj_1 obj_2 : Box) : Bool :=
  obj_1.xmin < obj_2.xmin

/-- Embedding of `_check_above` (calc_spatial_relation_acc.py:118):
true iff `ymin1 < ymin2` or `ymax1 < ymax2`. -/
def check_above (obj_1 obj_2 : Box) : Bool :=
  obj_1.ymin < obj_2.ymin ∨ obj_1.ymax < obj_2.ymax

/-- Embedding of `_check_below` (calc_spatial_relation_acc.py:131):
true iff `ymax1 > ymax2` or `ymin1 > ymin2`. -/
def check_below (obj_1 obj_2 : Box) : Bool :=
  obj_1.ymax > obj_2.ymax ∨ obj_1.ymin > obj_2.ymin

/-- Embedding of `_check_between` (calc_spatial_relation_acc.py:144):
four horizontal/vertical combinations, first match wins. -/
def check_between (obj_1 obj_2 obj_3 : Box) : Bool :=
  if check_right obj_1 obj_2 && check_left obj_1 obj_3 then true
  else if check_left obj_1 obj_2 && check_right obj_1 obj_3 then true
  else if check_below obj_1 obj_2 && check_above obj_1 obj_3 then true
  else if check_above obj_1 obj_2 && check_below obj_1 obj_3 then true
  else false

/-- Embedding of `_get_box_area` (calc_size_comp_acc.py:63). -/
def get_box_area (obj : Box) : ℚ :=
  (obj.xmax - obj.xmin) * (obj.ymax - obj.ymin)

/-- Embedding of `_check_large` (calc_size_comp_acc.py:73):
strict area comparison. -/
def check_large (obj_1 obj_2 : Box) : Bool :=
  get_box_area obj_1 > get_box_area obj_2

/-- Embedding of `_check_small` (calc_size_comp_acc.py:86):
strict area comparison. -/
def check_small (obj_1 obj_2 : Box) : Bool :=
  get_box_area obj_1 < get_box_area obj_2

/-- One normalized predicted object: class label and box
(the value type of `convert_pred_format`'s inner dict). -/
structure PredObj where
  cls : String
  cords : Box
deriving DecidableEq, Repr

/-- A per-image prediction dict `obj_id -> {cls, cords}`, in insertion
order. -/
abbrev PredImg := List (Nat × PredObj)

/-- One converted ground-truth sample (`convert_gt_format` output):
object class names, relation labels, difficulty level. -/
structure GtSample where
  objs : List String
  relations : List String
  level : Int
deriving Repr

/-- Embedding of `_sort_pred_obj` (identical in
calc_spatial_relation_acc.py:165 and calc_size_comp_acc.py:99):
iterate the prediction dict in order and, for each predicted object whose
class is among the ground-truth classes, write it at the index of the
first ground-truth object with that class (`gt_objs.index`); later
iterations overwrite earlier ones. The result maps an object index to the
entry stored there, `none` when the key was never written (a Python access
at such an index raises KeyError). -/
def sortPredObj (pred_objs : PredImg) (gt_objs : List String) : Nat → Option PredObj :=
  pred_objs.foldl
    (fun acc kv =>
      if kv.2.cls ∈ gt_objs then
        fun j => if j = gt_objs.indexOf kv.2.cls then some kv.2 else acc j
      else acc)
    (fun _ => none)

/-- The box assigned to each ground-truth object index
(`sorted_pred_objs[i]['cords']`). -/
def assignOf (pred_objs : PredImg) (gt_objs : List String) : Nat → Option Box :=
  fun i => (sortPredObj pred_objs gt_objs i).map PredObj.cords

/-- An assignment in which object index `i` holds the `i`-th box of the
list (used to instantiate the scoring functions on explicit boxes). -/
def listAssign (bs : List Box) : Nat → Option Box :=
  fun i => bs[i]?

/-- The class labels predicted for one image (calc_spatial_relation_acc.py:200). -/
def predClasses (pred_objs : PredImg) : List String :=
  pred_objs.map (fun kv => kv.2.cls)

/-- The class check (calc_spatial_relation_acc.py:203-210, identically
calc_size_comp_acc.py:166-173): every ground-truth class must appear among
the predicted classes (`miss_flag` stays false). -/
def classCheck (gt_objs : List String) (pred_objs : PredImg) : Bool :=
  gt_objs.all (fun c => c ∈ predClasses pred_objs)

def above_spatial_words : List String := ["on", "above", "over", "top"]

def below_spatial_words : List String := ["below", "beneath", "under", "underneath"]

/-- Easy-level dispatch of the spatial `cal_acc`
(calc_spatial_relation_acc.py:216-229): a single relation between
assignment 0 and assignment 1; horizontal labels match
"on the right of"/"right" and "on the left of"/"left"; an unmatched label
scores false without touching the assignment. -/
def scoreEasySpatial (relations : List String) (f : Nat → Option Box) : Option Bool := do
  let r0 ← relations[0]?
  if r0 = "on the right of" ∨ r0 = "right" then do
    let b0 ← f 0
    let b1 ← f 1
    pure (check_right b0 b1)
  else if r0 = "on the left of" ∨ r0 = "left" then do
    let b0 ← f 0
    let b1 ← f 1
    pure (check_left b0 b1)
  else if r0 ∈ above_spatial_words then do
    let b0 ← f 0
    let b1 ← f 1
    pure (check_above b0 b1)
  else if r0 ∈ below_spatial_words then do
    let b0 ← f 0
    let b1 ← f 1
    pure (check_below b0 b1)
  else pure false

/-- First-relation gate of the medium (3-object) spatial level
(calc_spatial_relation_acc.py:233-245): result false means `continue`
(image scored false); horizontal labels accept the "right"/"left"
synonyms; an unmatched label passes the gate. -/
def gateMediumSpatial (r0 : String) (f : Nat → Option Box) : Option Bool :=
  if r0 = "on the right of" ∨ r0 = "right" then do
    let b0 ← f 0
    let b1 ← f 1
    pure (check_right b0 b1)
  else if r0 = "on the left of" ∨ r0 = "left" then do
    let b0 ← f 0
    let b1 ← f 1
    pure (check_left b0 b1)
  else if r0 ∈ above_spatial_words then do
    let b0 ← f 0
    let b1 ← f 1
    pure (check_above b0 b1)
  else if r0 ∈ below_spatial_words then do
    let b0 ← f 0
    let b1 ← f 1
    pure (check_below b0 b1)
  else pure true

/-- Second-relation check of the medium spatial level
(calc_spatial_relation_acc.py:248-259): between assignment 0 and
assignment 2; horizontal labels match only the exact phrases; an unmatched
label scores false. -/
def secondMediumSpatial (r1 : String) (f : Nat → Option Box) : Option Bool :=
  if r1 = "on the right of" then do
    let b0 ← f 0
    let b2 ← f 2
    pure (check_right b0 b2)
  else if r1 = "on the left of" then do
    let b0 ← f 0
    let b2 ← f 2
    pure (check_left b0 b2)
  else if r1 ∈ above_spatial_words then do
    let b0 ← f 0
    let b2 ← f 2
    pure (check_above b0 b2)
  else if r1 ∈ below_spatial_words then do
    let b0 ← f 0
    let b2 ← f 2
    pure (check_below b0 b2)
  else pure false

/-- Medium-level dispatch of the spatial `cal_acc`
(calc_spatial_relation_acc.py:230-264): with exactly two relations, gate
then second check; otherwise the between check on assignments 0,1,2. -/
def scoreMediumSpatial (relations : List String) (f : Nat → Option Box) : Option Bool :=
  match relations with
  | [r0, r1] => do
    let g ← gateMediumSpatial r0 f
    if g then secondMediumSpatial r1 f else pure false
  | _ => do
    let b0 ← f 0
    let b1 ← f 1
    let b2 ← f 2
    pure (check_between b0 b1 b2)

/-- First-relation gate of the hard (4-object) spatial level
(calc_spatial_relation_acc.py:269-285): the relation must hold between
assignments 0 and 2 and simultaneously between assignments 1 and 2;
horizontal labels match only the exact phrases; an unmatched label passes
the gate. -/
def gateHardSpatial (r0 : String) (f : Nat → Option Box) : Option Bool :=
  if r0 = "on the right of" then do
    let b0 ← f 0
    let b1 ← f 1
    let b2 ← f 2
    pure (check_right b0 b2 && check_right b1 b2)
  else if r0 = "on the left of" then do
    let b0 ← f 0
    let b1 ← f 1
    let b2 ← f 2
    pure (check_left b0 b2 && check_left b1 b2)
  else if r0 ∈ above_spatial_words then do
    let b0 ← f 0
    let b1 ← f 1
    let b2 ← f 2
    pure (check_above b0 b2 && check_above b1 b2)
  else if r0 ∈ below_spatial_words then do
    let b0 ← f 0
    let b1 ← f 1
    let b2 ← f 2
    pure (check_below b0 b2 && check_below b1 b2)
  else pure true

/-- Second-relation check of the hard spatial level
(calc_spatial_relation_acc.py:287-303): conjunction between assignments
0,3 and 1,3; horizontal labels match only the exact phrases; an unmatched
label scores false. -/
def secondHardSpatial (r1 : String) (f : Nat → Option Box) : Option Bool :=
  if r1 = "on the right of" then do
    let b0 ← f 0
    let b1 ← f 1
    let b3 ← f 3
    pure (check_right b0 b3 && check_right b1 b3)
  else if r1 = "on the left of" then do
    let b0 ← f 0
    let b1 ← f 1
    let b3 ← f 3
    pure (check_left b0 b3 && check_left b1 b3)
  else if r1 ∈ above_spatial_words then do
    let b0 ← f 0
    let b1 ← f 1
    let b3 ← f 3
    pure (check_above b0 b3 && check_above b1 b3)
  else if r1 ∈ below_spatial_words then do
    let b0 ← f 0
    let b1 ← f 1
    let b3 ← f 3
    pure (check_below b0 b3 && check_below b1 b3)
  else pure false

/-- Hard-level dispatch of the spatial `cal_acc`
(calc_spatial_relation_acc.py:266-312): with exactly two relations, gate
then second check; otherwise both between checks on assignments (0,2,3)
and (1,2,3). -/
def scoreHardSpatial (relations : List String) (f : Nat → Option Box) : Option Bool :=
  match relations with
  | [r0, r1] => do
    let g ← gateHardSpatial r0 f
    if g then secondHardSpatial r1 f else pure false
  | _ => do
    let b0 ← f 0
    let b1 ← f 1
    let b2 ← f 2
    let b3 ← f 3
    pure (check_between b0 b2 b3 && check_between b1 b2 b3)

/-- The outcome of one ground-truth image at its level in the spatial
`cal_acc` loop body (calc_spatial_relation_acc.py:193-314): `some true`
means `true_count` is incremented, `some false` means it is not, `none`
means the Python code raises. A missing prediction entry or a failed class
check scores false. -/
def spatialOutcome (sample : GtSample) (pred_img : Option PredImg) : Option Bool :=
  match pred_img with
  | none => some false
  | some pred =>
    if classCheck sample.objs pred then
      let f := assignOf pred sample.objs
      if sample.objs.length = 2 then scoreEasySpatial sample.relations f
      else if sample.objs.length = 3 then scoreMediumSpatial sample.relations f
      else if sample.objs.length = 4 then scoreHardSpatial sample.relations f
      else some false
    else some false

/-- The `(true_count, total_count)` pair accumulated by the spatial
`cal_acc` loop (calc_spatial_relation_acc.py:184-314), starting at image
index `idx`: every sample at the requested level counts toward
`total_count`, its outcome toward `true_count`. -/
def spatialCounts : List GtSample → Nat → List (String × PredImg) → Int → Option (Nat × Nat)
  | [], _, _, _ => some (0, 0)
  | sample :: rest, idx, pred, lvl =>
    if sample.level = lvl then do
      let b ← spatialOutcome sample (pred.lookup (toString idx))
      let p ← spatialCounts rest (idx + 1) pred lvl
      pure (p.1 + (if b then 1 else 0), p.2 + 1)
    else spatialCounts rest (idx + 1) pred lvl

/-- `100 * true_count / total_count if total_count > 0 else 0.0`
(calc_spatial_relation_acc.py:316, calc_size_comp_acc.py:233). -/
def accOf (t tot : Nat) : ℚ :=
  if tot > 0 then 100 * ((t : ℚ) / (tot : ℚ)) else 0

/-- Embedding of `cal_acc` of calc_spatial_relation_acc.py:178. -/
def cal_acc_spatial (gt_objs : List GtSample) (pred_objs : List (String × PredImg))
    (level : Int) : Option ℚ :=
  (spatialCounts gt_objs 0 pred_objs level).map (fun p => accOf p.1 p.2)

def bigger_words : List String := ["larger", "bigger"]

def smaller_words : List String := ["smaller"]

/-- Easy-level dispatch of the size `cal_acc`
(calc_size_comp_acc.py:179-188): a single size relation between
assignment 0 and assignment 1; an unmatched label warns and scores false. -/
def scoreEasySize (relations : List String) (f : Nat → Option Box) : Option Bool := do
  let r0 ← relations[0]?
  if r0 ∈ bigger_words then do
    let b0 ← f 0
    let b1 ← f 1
    pure (check_large b0 b1)
  else if r0 ∈ smaller_words then do
    let b0 ← f 0
    let b1 ← f 1
    pure (check_small b0 b1)
  else pure false

/-- First-relation gate of the medium (3-object) size level
(calc_size_comp_acc.py:192-198): between assignments 0 and 1; an
unmatched label passes the gate. -/
def gateMediumSize (r0 : String) (f : Nat → Option Box) : Option Bool :=
  if r0 ∈ bigger_words then do
    let b0 ← f 0
    let b1 ← f 1
    pure (check_large b0 b1)
  else if r0 ∈ smaller_words then do
    let b0 ← f 0
    let b1 ← f 1
    pure (check_small b0 b1)
  else pure true

/-- Second-relation check of the medium size level
(calc_size_comp_acc.py:201-207): between assignments 0 and 2; an
unmatched label scores false. -/
def secondMediumSize (r1 : String) (f : Nat → Option Box) : Option Bool :=
  if r1 ∈ bigger_words then do
    let b0 ← f 0
    let b2 ← f 2
    pure (check_large b0 b2)
  else if r1 ∈ smaller_words then do
    let b0 ← f 0
    let b2 ← f 2
    pure (check_small b0 b2)
  else pure false

/-- Medium-level dispatch of the size `cal_acc`
(calc_size_comp_acc.py:190-207): `relations[0]` is accessed
unconditionally (an empty relation list raises); the second check runs
only when a second relation exists, otherwise the image scores false. -/
def scoreMediumSize (relations : List String) (f : Nat → Option Box) : Option Bool := do
  let r0 ← relations[0]?
  let g ← gateMediumSize r0 f
  if g then
    match relations with
    | _ :: r1 :: _ => secondMediumSize r1 f
    | _ => pure false
  else pure false

/-- First-relation gate of the hard (4-object) size level
(calc_size_comp_acc.py:211-219): the relation must hold between
assignments 0 and 1 and simultaneously between assignments 0 and 2; an
unmatched label passes the gate. -/
def gateHardSize (r0 : String) (f : Nat → Option Box) : Option Bool :=
  if r0 ∈ bigger_words then do
    let b0 ← f 0
    let b1 ← f 1
    let b2 ← f 2
    pure (check_large b0 b1 && check_large b0 b2)
  else if r0 ∈ smaller_words then do
    let b0 ← f 0
    let b1 ← f 1
    let b2 ← f 2
    pure (check_small b0 b1 && check_small b0 b2)
  else pure true

/-- Second-relation check of the hard size level
(calc_size_comp_acc.py:221-228): between assignments 0 and 3 only; an
unmatched label scores false. -/
def secondHardSize (r1 : String) (f : Nat → Option Box) : Option Bool :=
  if r1 ∈ bigger_words then do
    let b0 ← f 0
    let b3 ← f 3
    pure (check_large b0 b3)
  else if r1 ∈ smaller_words then do
    let b0 ← f 0
    let b3 ← f 3
    pure (check_small b0 b3)
  else pure false

/-- Hard-level dispatch of the size `cal_acc`
(calc_size_comp_acc.py:209-228). -/
def scoreHardSize (relations : List String) (f : Nat → Option Box) : Option Bool := do
  let r0 ← relations[0]?
  let g ← gateHardSize r0 f
  if g then
    match relations with
    | _ :: r1 :: _ => secondHardSize r1 f
    | _ => pure false
  else pure false

/-- The outcome of one ground-truth image at its level in the size
`cal_acc` loop body (calc_size_comp_acc.py:156-231), with the same
conventions as `spatialOutcome`. -/
def sizeOutcome (sample : GtSample) (pred_img : Option PredImg) : Option Bool :=
  match pred_img with
  | none => some false
  | some pred =>
    if classCheck sample.objs pred then
      let f := assignOf pred sample.objs
      if sample.objs.length = 2 then scoreEasySize sample.relations f
      else if sample.objs.length = 3 then scoreMediumSize sample.relations f
      else if sample.objs.length = 4 then scoreHardSize sample.relations f
      else some false
    else some false

/-- The `(true_count, total_count)` pair accumulated by the size
`cal_acc` loop (calc_size_comp_acc.py:147-231). -/
def sizeCounts : List GtSample → Nat → List (String × PredImg) → Int → Option (Nat × Nat)
  | [], _, _, _ => some (0, 0)
  | sample :: rest, idx, pred, lvl =>
    if sample.level = lvl then do
      let b ← sizeOutcome sample (pred.lookup (toString idx))
      let p ← sizeCounts rest (idx + 1) pred lvl
      pure (p.1 + (if b then 1 else 0), p.2 + 1)
    else sizeCounts rest (idx + 1) pred lvl

/-- Embedding of `cal_acc` of calc_size_comp_acc.py:141. -/
def cal_acc_size (gt_objs : List GtSample) (pred_objs : List (String × PredImg))
    (level : Int) : Option ℚ :=
  (sizeCounts gt_objs 0 pred_objs level).map (fun p => accOf p.1 p.2)

/-- One ground-truth counting entry (the fields of `compare_entry`'s
`gt_entry` that the counting scorer reads). -/
structure CountEntry where
  obj1 : String
  n1 : Int
  obj2 : String
  n2 : Int
  level : Int
deriving DecidableEq, Repr

/-- A per-image counting prediction: the class label `pred[0][-1]` of the
first detection under each slot, in dict iteration order. -/
abbrev CountPredEntry := List String

/-- The detection-counting loop of `compare_entry`
(calc_counting_acc.py:59-64): `obj1_pred` counts labels equal to `obj1`;
the `elif` counts labels equal to `obj2` (only when `obj2` is non-empty,
mirroring `obj2 = ... if ... else None`) among those not equal to `obj1`. -/
def countPreds (obj1 obj2 : String) (labels : CountPredEntry) : Int × Int :=
  labels.foldl
    (fun acc l =>
      if l = obj1 then (acc.1 + 1, acc.2)
      else if obj2 ≠ "" ∧ l = obj2 then (acc.1, acc.2 + 1)
      else acc)
    (0, 0)

/-- Embedding of `compare_entry` (calc_counting_acc.py:43-77): per-image
true positives, false positives and false negatives. -/
def compare_entry (e : CountEntry) (labels : CountPredEntry) : Int × Int × Int :=
  let d := countPreds e.obj1 e.obj2 labels
  let tp := min e.n1 d.1
  let fp := max 0 (d.1 - e.n1)
  let fneg := max 0 (e.n1 - d.1)
  if e.obj2 ≠ "" ∧ e.n2 > 0 then
    (tp + min e.n2 d.2, fp + max 0 (d.2 - e.n2), fneg + max 0 (e.n2 - d.2))
  else (tp, fp, fneg)

/-- The `(total_true_pos, total_false_pos, total_false_neg)` accumulated
by the `calc_accuracy` loop (calc_counting_acc.py:86-101), starting at
image index `idx`: entries at other levels are skipped; an entry whose
image id is absent from the predictions only warns and contributes
nothing. -/
def countingTotals : List CountEntry → Nat → List (String × CountPredEntry) → Int → Int × Int × Int
  | [], _, _, _ => (0, 0, 0)
  | e :: rest, idx, pred, lvl =>
    let r := countingTotals rest (idx + 1) pred lvl
    if e.level ≠ lvl then r
    else
      match pred.lookup (toString idx) with
      | some labels =>
        let c := compare_entry e labels
        (c.1 + r.1, c.2.1 + r.2.1, c.2.2 + r.2.2)
      | none => r

/-- `precision = TP/(TP+FP) if TP+FP > 0 else 0.0`
(calc_counting_acc.py:103). -/
def precision (tp fp : Int) : ℚ :=
  if tp + fp > 0 then (tp : ℚ) / ((tp : ℚ) + (fp : ℚ)) else 0

/-- `recall = TP/(TP+FN) if TP+FN > 0 else 0.0`
(calc_counting_acc.py:104; named `recallRate` here because `recall` is a
reserved command name). -/
def recallRate (tp fneg : Int) : ℚ :=
  if tp + fneg > 0 then (tp : ℚ) / ((tp : ℚ) + (fneg : ℚ)) else 0

/-- Embedding of `calc_accuracy` (calc_counting_acc.py:79-106). -/
def calc_accuracy (gt_data : List CountEntry) (pred_data : List (String × CountPredEntry))
    (level : Int) : ℚ × ℚ :=
  let t := countingTotals gt_data 0 pred_data level
  (precision t.1 t.2.1, recallRate t.1 t.2.2)

/-- The F1 computation of the counting main block
(calc_counting_acc.py:145-148): `0.0` unless `precision + recall > 0`. -/
def f1_score (p r : ℚ) : ℚ :=
  if p + r > 0 then (2 * p * r) / (p + r) else 0

/-- Embedding of `detect_color_hue_based`
(hue_based_color_classifier.py:12-26). -/
def detect_color_hue_based (hue_value : ℚ) : String :=
  if hue_value < 15 then "red"
  else if hue_value < 22 then "orange"
  else if hue_value < 39 then "yellow"
  else if hue_value < 78 then "green"
  else if hue_value < 131 then "blue"
  else "red"

/-- The predicate selected by the hard-level spatial relation matching
(exact horizontal phrases, vertical synonym sets); `none` when the label
is unrecognized at that level. -/
def hardSpatialRel (r : String) : Option (Box → Box → Bool) :=
  if r = "on the right of" then some check_right
  else if r = "on the left of" then some check_left
  else if r ∈ above_spatial_words then some check_above
  else if r ∈ below_spatial_words then some check_below
  else none

/-- The predicate selected by the size relation matching. -/
def sizeRel (r : String) : Option (Box → Box → Bool) :=
  if r ∈ bigger_words then some check_large
  else if r ∈ smaller_words then some check_small
  else none

lemma gateHardSpatial_eq {r0 : String} {p : Box → Box → Bool}
    (h : hardSpatialRel r0 = some p) {f : Nat → Option Box} {b0 b1 b2 : Box}
    (h0 : f 0 = some b0) (h1 : f 1 = some b1) (h2 : f 2 = some b2) :
    gateHardSpatial r0 f = some (p b0 b2 && p b1 b2) := by
  unfold hardSpatialRel at h
  split_ifs at h with c1 c2 c3 c4
  · injection h with h
    subst h
    simp [gateHardSpatial, c1, h0, h1, h2]
  · injection h with h
    subst h
    simp [gateHardSpatial, c1, c2, h0, h1, h2]
  · injection h with h
    subst h
    simp [gateHardSpatial, c1, c2, c3, h0, h1, h2]
  · injection h with h
    subst h
    simp [gateHardSpatial, c1, c2, c3, c4, h0, h1, h2]

lemma secondHardSpatial_eq {r1 : String} {q : Box → Box → Bool}
    (h : hardSpatialRel r1 = some q) {f : Nat → Option Box} {b0 b1 b3 : Box}
    (h0 : f 0 = some b0) (h1 : f 1 = some b1) (h3 : f 3 = some b3) :
    secondHardSpatial r1 f = some (q b0 b3 && q b1 b3) := by
  unfold hardSpatialRel at h
  split_ifs at h with c1 c2 c3 c4
  · injection h with h
    subst h
    simp [secondHardSpatial, c1, h0, h1, h3]
  · injection h with h
    subst h
    simp [secondHardSpatial, c1, c2, h0, h1, h3]
  · injection h with h
    subst h
    simp [secondHardSpatial, c1, c2, c3, h0, h1, h3]
  · injection h with h
    subst h
    simp [secondHardSpatial, c1, c2, c3, c4, h0, h1, h3]

lemma gateHardSize_eq {r0 : String} {p : Box → Box → Bool}
    (h : sizeRel r0 = some p) {f : Nat → Option Box} {b0 b1 b2 : Box}
    (h0 : f 0 = some b0) (h1 : f 1 = some b1) (h2 : f 2 = some b2) :
    gateHardSize r0 f = some (p b0 b1 && p b0 b2) := by
  unfold sizeRel at h
  split_ifs at h with c1 c2
  · injection h with h
    subst h
    simp [gateHardSize, c1, h0, h1, h2]
  · injection h with h
    subst h
    simp [gateHardSize, c1, c2, h0, h1, h2]

lemma secondHardSize_eq {r1 : String} {q : Box → Box → Bool}
    (h : sizeRel r1 = some q) {f : Nat → Option Box} {b0 b3 : Box}
    (h0 : f 0 = some b0) (h3 : f 3 = some b3) :
    secondHardSize r1 f = some (q b0 b3) := by
  unfold sizeRel at h
  split_ifs at h with c1 c2
  · injection h with h
    subst h
    simp [secondHardSize, c1, h0, h3]
  · injection h with h
    subst h
    simp [secondHardSize, c1, c2, h0, h3]

/-- An object index is populated by `_sort_pred_obj` exactly when some
predicted object has a ground-truth class whose first occurrence in the
ground-truth list is that index. -/
lemma sortPredObj_isSome_iff (pred : PredImg) (gt : List String) (i : Nat) :
    (sortPredObj pred gt i).isSome = true ↔
      ∃ kv ∈ pred, kv.2.cls ∈ gt ∧ gt.indexOf kv.2.cls = i := by
  have go : ∀ (ps : PredImg) (acc : Nat → Option PredObj),
      ((ps.foldl
          (fun acc kv =>
            if kv.2.cls ∈ gt then
              fun j => if j = gt.indexOf kv.2.cls then some kv.2 else acc j
            else acc)
          acc) i).isSome = true ↔
        ((acc i).isSome = true ∨ ∃ kv ∈ ps, kv.2.cls ∈ gt ∧ gt.indexOf kv.2.cls = i) := by
    intro ps
    induction ps with
    | nil => intro acc; simp
    | cons kv rest ih =>
      intro acc
      rw [List.foldl_cons, ih]
      by_cases hm : kv.2.cls ∈ gt
      · by_cases hi : i = gt.indexOf kv.2.cls
        · simp only [if_pos hm, if_pos hi, Option.isSome_some]
          constructor
          · intro _
            exact Or.inr ⟨kv, List.mem_cons_self kv rest, hm, hi.symm⟩
          · intro _
            exact Or.inl trivial
        · simp only [if_pos hm, if_neg hi, List.mem_cons]
          constructor
          · rintro (h | ⟨w, hw, hwgt, hwidx⟩)
            · exact Or.inl h
            · exact Or.inr ⟨w, Or.inr hw, hwgt, hwidx⟩
          · rintro (h | ⟨w, hw | hw, hwgt, hwidx⟩)
            · exact Or.inl h
            · exact absurd (hw ▸ hwidx).symm hi
            · exact Or.inr ⟨w, hw, hwgt, hwidx⟩
      · simp only [if_neg hm, List.mem_cons]
        constructor
        · rintro (h | ⟨w, hw, hwgt, hwidx⟩)
          · exact Or.inl h
          · exact Or.inr ⟨w, Or.inr hw, hwgt, hwidx⟩
        · rintro (h | ⟨w, hw | hw, hwgt, hwidx⟩)
          · exact Or.inl h
          · exact absurd (hw ▸ hwgt) hm
          · exact Or.inr ⟨w, hw, hwgt, hwidx⟩
  unfold sortPredObj
  rw [go]
  simp

/-- Claim C8: after the class check, with pairwise distinct ground-truth
class names, the matcher assignment is populated at every index below the
number of ground-truth objects (so the scorers' indexed accesses are
defined); when the first two ground-truth objects share a class name,
index 1 is never populated. -/
theorem matcher_assignment_defined :
    (∀ (pred : PredImg) (gt_objs : List String),
        classCheck gt_objs pred = true →
        gt_objs.Nodup →
        ∀ i, i < gt_objs.length → (sortPredObj pred gt_objs i).isSome = true)
    ∧ (∀ (pred : PredImg) (c : String) (rest : List String),
        sortPredObj pred (c :: c :: rest) 1 = none) := by
  constructor
  · intro pred gt_objs hcc hnd i hi
    simp only [classCheck, List.all_eq_true] at hcc
    have hc : gt_objs.get ⟨i, hi⟩ ∈ gt_objs := List.get_mem gt_objs i hi
    have hpc := hcc _ hc
    simp only [decide_eq_true_eq, predClasses, List.mem_map] at hpc
    obtain ⟨kv, hkv, hcls⟩ := hpc
    rw [sortPredObj_isSome_iff]
    refine ⟨kv, hkv, ?_, ?_⟩
    · rw [hcls]
      exact hc
    · rw [hcls]
      exact List.get_indexOf hnd ⟨i, hi⟩
  · intro pred c rest
    cases ho : sortPredObj pred (c :: c :: rest) 1 with
    | none => rfl
    | some v =>
      exfalso
      have hs : (sortPredObj pred (c :: c :: rest) 1).isSome = true := by rw [ho]; rfl
      rw [sortPredObj_isSome_iff] at hs
      obtain ⟨kv, _, _, hidx⟩ := hs
      by_cases hca : (c == kv.2.cls) = true
      · rw [List.indexOf_cons, hca] at hidx
        simp at hidx
      · rw [List.indexOf_cons, List.indexOf_cons] at hidx
        rw [Bool.not_eq_true] at hca
        rw [hca] at hidx
        simp at hidx

/-- Witness for C8: a two-object image with swapped detection order is
fully assigned; a duplicated ground-truth class never populates index 1. -/
theorem matcher_assignment_defined_witness :
    (sortPredObj [(0, ⟨"b", ⟨0, 0, 1, 1⟩⟩), (1, ⟨"a", ⟨2, 0, 3, 1⟩⟩)] ["a", "b"] 0).isSome = true
    ∧ (sortPredObj [(0, ⟨"b", ⟨0, 0, 1, 1⟩⟩), (1, ⟨"a", ⟨2, 0, 3, 1⟩⟩)] ["a", "b"] 1).isSome = true
    ∧ sortPredObj [(0, ⟨"a", ⟨0, 0, 1, 1⟩⟩)] ("a" :: "a" :: []) 1 = none :=
  ⟨matcher_assignment_defined.1 _ ["a", "b"] (by decide) (by decide) 0 (by decide),
   matcher_assignment_defined.1 _ ["a", "b"] (by decide) (by decide) 1 (by decide),
   matcher_assignment_defined.2 [(0, ⟨"a", ⟨0, 0, 1, 1⟩⟩)] "a" []⟩

/-- Closed form of the detection-counting fold: the first component
counts labels equal to `obj1`, the second counts labels equal to `obj2`
(but not `obj1`, and only when `obj2` is non-empty). -/
lemma countPreds_eq (obj1 obj2 : String) (labels : CountPredEntry) :
    countPreds obj1 obj2 labels =
      ((labels.countP (fun l => decide (l = obj1)) : Int),
       (labels.countP (fun l => decide (¬ l = obj1 ∧ obj2 ≠ "" ∧ l = obj2)) : Int)) := by
  have go : ∀ (ls : CountPredEntry) (a b : Int),
      ls.foldl
        (fun acc l =>
          if l = obj1 then (acc.1 + 1, acc.2)
          else if obj2 ≠ "" ∧ l = obj2 then (acc.1, acc.2 + 1)
          else acc)
        (a, b) =
      (a + (ls.countP (fun l => decide (l = obj1)) : Int),
       b + (ls.countP (fun l => decide (¬ l = obj1 ∧ obj2 ≠ "" ∧ l = obj2)) : Int)) := by
    intro ls
    induction ls with
    | nil => intro a b; simp
    | cons l rest ih =>
      intro a b
      by_cases h1 : l = obj1
      · have e1 : decide (l = obj1) = true := by simp [h1]
        have e2 : decide (¬ l = obj1 ∧ obj2 ≠ "" ∧ l = obj2) = false := by simp [h1]
        rw [List.foldl_cons, if_pos h1, ih, List.countP_cons, List.countP_cons, e1, e2]
        simp only [if_true, if_false, Prod.mk.injEq]
        constructor <;> push_cast <;> ring
      · by_cases h2 : obj2 ≠ "" ∧ l = obj2
        · have e1 : decide (l = obj1) = false := by simp [h1]
          have e2 : decide (¬ l = obj1 ∧ obj2 ≠ "" ∧ l = obj2) = true := by
            simp only [decide_eq_true_eq]
            exact ⟨h1, h2⟩
          rw [List.foldl_cons, if_neg h1, if_pos h2, ih, List.countP_cons, List.countP_cons,
            e1, e2]
          simp only [if_true, if_false, Prod.mk.injEq]
          constructor <;> push_cast <;> ring
        · have e1 : decide (l = obj1) = false := by simp [h1]
          have e2 : decide (¬ l = obj1 ∧ obj2 ≠ "" ∧ l = obj2) = false := by
            simp only [decide_eq_false_iff_not]
            intro hc
            exact h2 hc.2
          rw [List.foldl_cons, if_neg h1, if_neg h2, ih, List.countP_cons, List.countP_cons,
            e1, e2]
          simp
  simpa using go labels 0 0

/-- Claim C3: per expected class with expected count `n` and detected
count `d` for that exact class label, the counting scorer adds
`min n d` to TP, `max 0 (d - n)` to FP and `max 0 (n - d)` to FN; in
particular expected 3 / detected 5 gives (3, 2, 0) and expected 3 /
detected 1 gives (1, 0, 2). -/
theorem counting_per_class_min_max :
    (∀ (e : CountEntry) (labels : CountPredEntry), e.obj2 = "" →
        compare_entry e labels =
          (min e.n1 (labels.count e.obj1 : Int),
           max 0 ((labels.count e.obj1 : Int) - e.n1),
           max 0 (e.n1 - (labels.count e.obj1 : Int))))
    ∧ (∀ (e : CountEntry) (labels : CountPredEntry),
        e.obj2 ≠ "" → 0 < e.n2 → e.obj1 ≠ e.obj2 →
        compare_entry e labels =
          (min e.n1 (labels.count e.obj1 : Int) + min e.n2 (labels.count e.obj2 : Int),
           max 0 ((labels.count e.obj1 : Int) - e.n1)
             + max 0 ((labels.count e.obj2 : Int) - e.n2),
           max 0 (e.n1 - (labels.count e.obj1 : Int))
             + max 0 (e.n2 - (labels.count e.obj2 : Int))))
    ∧ compare_entry ⟨"cup", 3, "", 0, 1⟩ (List.replicate 5 "cup") = (3, 2, 0)
    ∧ compare_entry ⟨"cup", 3, "", 0, 1⟩ ["cup"] = (1, 0, 2) := by
  have hcount : ∀ (c : String) (labels : CountPredEntry),
      labels.count c = labels.countP (fun l => decide (l = c)) := by
    intro c labels
    rw [List.count]
    apply List.countP_congr
    intro x _
    by_cases hx : x = c <;> simp [hx]
  refine ⟨?_, ?_, by decide, by decide⟩
  · intro e labels h2
    have hcond : ¬ (e.obj2 ≠ "" ∧ e.n2 > 0) := fun hc => hc.1 h2
    simp only [compare_entry, countPreds_eq, if_neg hcond]
    rw [← hcount]
  · intro e labels h2 hn hne
    have hc2 : labels.countP (fun l => decide (¬ l = e.obj1 ∧ e.obj2 ≠ "" ∧ l = e.obj2))
        = labels.countP (fun l => decide (l = e.obj2)) := by
      apply List.countP_congr
      intro l _
      by_cases hl : l = e.obj2
      · subst hl
        simp only [decide_eq_true_eq, eq_self_iff_true, and_true, decide_eq_decide]
        constructor
        · intro _; trivial
        · intro _; exact ⟨fun h => hne h.symm, h2⟩
      · simp [hl]
    have hcond : (e.obj2 ≠ "" ∧ e.n2 > 0) := ⟨h2, hn⟩
    simp only [compare_entry, countPreds_eq, if_pos hcond, hc2]
    rw [← hcount, ← hcount]

/-- Witness for C3 on a two-class entry. -/
theorem counting_per_class_min_max_witness :
    compare_entry ⟨"cup", 2, "dog", 1, 1⟩ ["cup", "dog", "cup", "cup", "bird"] =
      (min 2 3 + min 1 1, max 0 (3 - 2) + max 0 (1 - 1), max 0 (2 - 3) + max 0 (1 - 1)) :=
  counting_per_class_min_max.2.1 ⟨"cup", 2, "dog", 1, 1⟩ ["cup", "dog", "cup", "cup", "bird"]
    (by decide) (by decide) (by decide)

/-- Claim C9: detections whose class matches neither expected class
contribute nothing to TP, FP or FN; and when the second expected object
name is non-empty but its expected count is 0, detections of that class
contribute nothing either. -/
theorem counting_ignores_unexpected :
    (∀ (e : CountEntry) (l : String) (labels : CountPredEntry),
        l ≠ e.obj1 → l ≠ e.obj2 →
        compare_entry e (l :: labels) = compare_entry e labels)
    ∧ (∀ (e : CountEntry) (l : String) (labels : CountPredEntry),
        e.obj2 ≠ "" → e.n2 = 0 → l = e.obj2 → l ≠ e.obj1 →
        compare_entry e (l :: labels) = compare_entry e labels) := by
  constructor
  · intro e l labels h1 h2
    have hstep : countPreds e.obj1 e.obj2 (l :: labels) = countPreds e.obj1 e.obj2 labels := by
      simp only [countPreds, List.foldl_cons]
      have c1 : ¬ (l = e.obj1) := h1
      have c2 : ¬ (e.obj2 ≠ "" ∧ l = e.obj2) := fun hc => h2 hc.2
      rw [if_neg c1, if_neg c2]
    simp [compare_entry, hstep]
  · intro e l labels h2 hn hl hne
    have hfalse : ¬ (e.obj2 ≠ "" ∧ e.n2 > 0) := by
      intro hc
      rw [hn] at hc
      exact absurd hc.2 (by norm_num)
    have hp1 : List.countP (fun x => decide (x = e.obj1)) (l :: labels)
        = List.countP (fun x => decide (x = e.obj1)) labels := by
      rw [List.countP_cons]
      simp [hne]
    simp only [compare_entry, countPreds_eq, if_neg hfalse, hp1]

/-- Witness for C9 with an unexpected "bird" detection. -/
theorem counting_ignores_unexpected_witness :
    compare_entry ⟨"cup", 2, "dog", 1, 1⟩ ["bird", "cup"] =
      compare_entry ⟨"cup", 2, "dog", 1, 1⟩ ["cup"] :=
  counting_ignores_unexpected.1 ⟨"cup", 2, "dog", 1, 1⟩ "bird" ["cup"]
    (by decide) (by decide)

/-- Claim C5: all rate computations are total and return 0 on zero
denominators: `precision` is 0 when `TP + FP = 0`, `recall` is 0 when
`TP + FN = 0`, `F1` is 0 when `precision + recall = 0`, and the per-level
accuracy is 0 when the attempted count is 0. -/
theorem zero_denominator_rates_zero :
    (∀ tp fp : Int, tp + fp = 0 → precision tp fp = 0)
    ∧ (∀ tp fneg : Int, tp + fneg = 0 → recallRate tp fneg = 0)
    ∧ (∀ p r : ℚ, p + r = 0 → f1_score p r = 0)
    ∧ (∀ t : Nat, accOf t 0 = 0) := by
  refine ⟨?_, ?_, ?_, ?_⟩
  · intro tp fp h
    simp only [precision, h]
    norm_num
  · intro tp fneg h
    simp only [recallRate, h]
    norm_num
  · intro p r h
    simp only [f1_score, h]
    norm_num
  · intro t
    simp [accOf]

/-- Witness for C5 at concrete zero denominators. -/
theorem zero_denominator_rates_zero_witness :
    precision 0 0 = 0 ∧ recallRate 0 0 = 0 ∧ f1_score 0 0 = 0 ∧ accOf 7 0 = 0 :=
  ⟨zero_denominator_rates_zero.1 0 0 (by decide),
   zero_denominator_rates_zero.2.1 0 0 (by decide),
   zero_denominator_rates_zero.2.2.1 0 0 (by norm_num),
   zero_denominator_rates_zero.2.2.2 7⟩

/-- Claim C6: the hue classifier uses the fixed non-wrapping breakpoints
`<15` red, `<22` orange, `<39` yellow, `<78` green, `<131` blue, else red;
in particular hue 14 gives red, 15 orange, 130 blue, 131 red. -/
theorem hue_breakpoints :
    (∀ h : ℚ,
      (h < 15 → detect_color_hue_based h = "red")
      ∧ (15 ≤ h → h < 22 → detect_color_hue_based h = "orange")
      ∧ (22 ≤ h → h < 39 → detect_color_hue_based h = "yellow")
      ∧ (39 ≤ h → h < 78 → detect_color_hue_based h = "green")
      ∧ (78 ≤ h → h < 131 → detect_color_hue_based h = "blue")
      ∧ (131 ≤ h → detect_color_hue_based h = "red"))
    ∧ detect_color_hue_based 14 = "red"
    ∧ detect_color_hue_based 15 = "orange"
    ∧ detect_color_hue_based 130 = "blue"
    ∧ detect_color_hue_based 131 = "red" := by
  refine ⟨?_, by decide, by decide, by decide, by decide⟩
  intro h
  refine ⟨?_, ?_, ?_, ?_, ?_, ?_⟩ <;>
    intros <;>
    simp only [detect_color_hue_based] <;>
    split_ifs <;>
    first | rfl | linarith

/-- Witness for C6 at hue 20. -/
theorem hue_breakpoints_witness :
    detect_color_hue_based 20 = "orange" :=
  ((hue_breakpoints.1 20).2.1 (by norm_num) (by norm_num))

/-- Claim C10: the hue classifier is total over ℚ and always returns one
of the five color names; every input below 15, negative inputs included,
maps to red. -/
theorem hue_classifier_total :
    ∀ h : ℚ,
      (detect_color_hue_based h = "red" ∨ detect_color_hue_based h = "orange"
        ∨ detect_color_hue_based h = "yellow" ∨ detect_color_hue_based h = "green"
        ∨ detect_color_hue_based h = "blue")
      ∧ (h < 15 → detect_color_hue_based h = "red") := by
  intro h
  constructor
  · simp only [detect_color_hue_based]
    split_ifs <;> simp
  · intro hlt
    simp [detect_color_hue_based, hlt]

/-- Witness for C10 at negative hue and at a hue past the wrap point. -/
theorem hue_classifier_total_witness :
    detect_color_hue_based (-3) = "red" ∧
      (detect_color_hue_based 200 = "red" ∨ detect_color_hue_based 200 = "orange"
        ∨ detect_color_hue_based 200 = "yellow" ∨ detect_color_hue_based 200 = "green"
        ∨ detect_color_hue_based 200 = "blue") :=
  ⟨(hue_classifier_total (-3)).2 (by norm_num), (hue_classifier_total 200).1⟩

/-- Claim C7: `larger` and `smaller` compare strict box areas:
`larger a b = smaller b a` whenever the areas differ, and an exact area
tie satisfies neither. -/
theorem larger_smaller_duality :
    ∀ a b : Box,
      (get_box_area a ≠ get_box_area b → check_large a b = check_small b a)
      ∧ (get_box_area a = get_box_area b →
          check_large a b = false ∧ check_small a b = false) := by
  intro a b
  constructor
  · intro _
    by_cases hlt : get_box_area b < get_box_area a <;>
      simp [check_large, check_small, hlt]
  · intro he
    constructor <;> simp [check_large, check_small, he]

/-- Witness for C7 at boxes of area 4 and 1. -/
theorem larger_smaller_duality_witness :
    get_box_area ⟨0, 0, 2, 2⟩ ≠ get_box_area ⟨0, 0, 1, 1⟩ ∧
      check_large ⟨0, 0, 2, 2⟩ ⟨0, 0, 1, 1⟩ = check_small ⟨0, 0, 1, 1⟩ ⟨0, 0, 2, 2⟩ :=
  ⟨by norm_num [get_box_area],
   (larger_smaller_duality ⟨0, 0, 2, 2⟩ ⟨0, 0, 1, 1⟩).1 (by norm_num [get_box_area])⟩

lemma gateMediumSpatial_some (r0 : String) {f : Nat → Option Box} {b0 b1 : Box}
    (h0 : f 0 = some b0) (h1 : f 1 = some b1) :
    ∃ g, gateMediumSpatial r0 f = some g := by
  unfold gateMediumSpatial
  split_ifs <;>
    first
      | (simp only [h0, h1]
         exact ⟨_, rfl⟩)
      | exact ⟨_, rfl⟩

/-- Claim C1 (amended): for 4 objects and two recognized relations, the
spatial scorer requires relation 0 to hold between assignments 0,2 and
1,2 simultaneously and scores true iff relation 1 then holds between
assignments 0,3 and 1,3; the size scorer instead requires relation 0
between assignments 0,1 and 0,2 and scores true iff relation 1 holds
between assignments 0 and 3 only. -/
theorem hard_level_relation_pairs :
    ∀ (r0 r1 : String) (p q : Box → Box → Bool) (b0 b1 b2 b3 : Box),
      (hardSpatialRel r0 = some p → hardSpatialRel r1 = some q →
        scoreHardSpatial [r0, r1] (listAssign [b0, b1, b2, b3]) =
          some ((p b0 b2 && p b1 b2) && (q b0 b3 && q b1 b3)))
      ∧ (sizeRel r0 = some p → sizeRel r1 = some q →
        scoreHardSize [r0, r1] (listAssign [b0, b1, b2, b3]) =
          some ((p b0 b1 && p b0 b2) && q b0 b3)) := by
  intro r0 r1 p q b0 b1 b2 b3
  have h0 : listAssign [b0, b1, b2, b3] 0 = some b0 := rfl
  have h1 : listAssign [b0, b1, b2, b3] 1 = some b1 := rfl
  have h2 : listAssign [b0, b1, b2, b3] 2 = some b2 := rfl
  have h3 : listAssign [b0, b1, b2, b3] 3 = some b3 := rfl
  constructor
  · intro hp hq
    have hg := gateHardSpatial_eq hp h0 h1 h2
    have hs := secondHardSpatial_eq hq h0 h1 h3
    cases hgb : (p b0 b2 && p b1 b2)
    · rw [hgb] at hg
      simp [scoreHardSpatial, hg, hgb]
    · rw [hgb] at hg
      simp [scoreHardSpatial, hg, hgb, hs]
  · intro hp hq
    have hg := gateHardSize_eq hp h0 h1 h2
    have hs := secondHardSize_eq hq h0 h3
    cases hgb : (p b0 b1 && p b0 b2)
    · rw [hgb] at hg
      simp [scoreHardSize, hg, hgb]
    · rw [hgb] at hg
      simp [scoreHardSize, hg, hgb, hs]

/-- Witness for C1 at concrete recognized relations. -/
theorem hard_level_relation_pairs_witness :
    scoreHardSpatial ["on the right of", "on"]
        (listAssign [⟨0, 0, 1, 1⟩, ⟨1, 1, 2, 2⟩, ⟨2, 2, 3, 3⟩, ⟨3, 3, 4, 4⟩]) =
      some ((check_right ⟨0, 0, 1, 1⟩ ⟨2, 2, 3, 3⟩ && check_right ⟨1, 1, 2, 2⟩ ⟨2, 2, 3, 3⟩)
        && (check_above ⟨0, 0, 1, 1⟩ ⟨3, 3, 4, 4⟩ && check_above ⟨1, 1, 2, 2⟩ ⟨3, 3, 4, 4⟩))
    ∧ scoreHardSize ["bigger", "smaller"]
        (listAssign [⟨0, 0, 1, 1⟩, ⟨1, 1, 2, 2⟩, ⟨2, 2, 3, 3⟩, ⟨3, 3, 4, 4⟩]) =
      some ((check_large ⟨0, 0, 1, 1⟩ ⟨1, 1, 2, 2⟩ && check_large ⟨0, 0, 1, 1⟩ ⟨2, 2, 3, 3⟩)
        && check_small ⟨0, 0, 1, 1⟩ ⟨3, 3, 4, 4⟩) :=
  ⟨(hard_level_relation_pairs "on the right of" "on" check_right check_above
      ⟨0, 0, 1, 1⟩ ⟨1, 1, 2, 2⟩ ⟨2, 2, 3, 3⟩ ⟨3, 3, 4, 4⟩).1 rfl rfl,
   (hard_level_relation_pairs "bigger" "smaller" check_large check_small
      ⟨0, 0, 1, 1⟩ ⟨1, 1, 2, 2⟩ ⟨2, 2, 3, 3⟩ ⟨3, 3, 4, 4⟩).2 rfl rfl⟩

/-- Counterexample for C1 as stated: a 4-object size assertion whose
first relation fails between the detections at indices 1 and 2 (area 5 is
not larger than area 10), yet the size scorer counts the image as true
because it only gates on index pairs (0,1) and (0,2). -/
theorem hard_level_size_pairs_cex :
    sizeOutcome ⟨["a", "b", "c", "d"], ["bigger", "bigger"], 3⟩
        (some [(0, ⟨"a", ⟨0, 0, 10, 10⟩⟩), (1, ⟨"b", ⟨0, 0, 5, 1⟩⟩),
               (2, ⟨"c", ⟨0, 0, 5, 2⟩⟩), (3, ⟨"d", ⟨0, 0, 4, 2⟩⟩)]) = some true
    ∧ check_large ⟨0, 0, 5, 1⟩ ⟨0, 0, 5, 2⟩ = false := by
  constructor
  · simp [sizeOutcome, classCheck, predClasses, scoreHardSize, gateHardSize, secondHardSize,
      assignOf, sortPredObj, bigger_words, smaller_words, List.indexOf, List.findIdx,
      List.findIdx.go]
    norm_num [check_large, check_small, get_box_area]
  · norm_num [check_large, get_box_area]

/-- Claim C4 (amended): the horizontal synonyms "right"/"left" are
interchangeable with the exact phrases only where relation 0 is matched at
the 2-object and 3-object levels; in the second-relation position of the
3-object level the synonym is unrecognized and always scores false, and at
the 4-object level the synonym is unrecognized in the gate (which then
imposes no constraint) and in the second-relation position (which then
scores false). -/
theorem horizontal_synonym_positions :
    (∀ f : Nat → Option Box,
        scoreEasySpatial ["right"] f = scoreEasySpatial ["on the right of"] f
        ∧ scoreEasySpatial ["left"] f = scoreEasySpatial ["on the left of"] f)
    ∧ (∀ (r1 : String) (f : Nat → Option Box),
        scoreMediumSpatial ["right", r1] f = scoreMediumSpatial ["on the right of", r1] f
        ∧ scoreMediumSpatial ["left", r1] f = scoreMediumSpatial ["on the left of", r1] f)
    ∧ (∀ (r0 : String) (b0 b1 b2 : Box),
        scoreMediumSpatial [r0, "right"] (listAssign [b0, b1, b2]) = some false
        ∧ scoreMediumSpatial [r0, "left"] (listAssign [b0, b1, b2]) = some false)
    ∧ (∀ b0 b1 b2 b3 : Box,
        scoreHardSpatial ["right", "on the right of"] (listAssign [b0, b1, b2, b3]) =
          some (check_right b0 b3 && check_right b1 b3)
        ∧ scoreHardSpatial ["on the right of", "right"] (listAssign [b0, b1, b2, b3]) =
          some false) := by
  refine ⟨?_, ?_, ?_, ?_⟩
  · intro f
    exact ⟨rfl, rfl⟩
  · intro r1 f
    exact ⟨rfl, rfl⟩
  · intro r0 b0 b1 b2
    obtain ⟨g, hg⟩ := @gateMediumSpatial_some r0 (listAssign [b0, b1, b2]) b0 b1 rfl rfl
    constructor
    · cases g <;> simp [scoreMediumSpatial, hg, secondMediumSpatial,
        above_spatial_words, below_spatial_words]
    · cases g <;> simp [scoreMediumSpatial, hg, secondMediumSpatial,
        above_spatial_words, below_spatial_words]
  · intro b0 b1 b2 b3
    constructor
    · rfl
    · have hg := @gateHardSpatial_eq "on the right of" check_right rfl
        (listAssign [b0, b1, b2, b3]) b0 b1 b2 rfl rfl rfl
      cases hgb : (check_right b0 b2 && check_right b1 b2)
      · rw [hgb] at hg
        simp [scoreHardSpatial, hg]
      · rw [hgb] at hg
        simp [scoreHardSpatial, hg, secondHardSpatial,
          above_spatial_words, below_spatial_words]

/-- Counterexample for C4 as stated: at the 3-object level, with the
first relation satisfied, the second relation "on the right of" scores
the image true but the synonym "right" on the same boxes scores it false,
so the two labels are not interchangeable in that position. -/
theorem horizontal_synonym_positions_cex :
    scoreMediumSpatial ["on", "on the right of"]
        (listAssign [⟨0, 0, 2, 2⟩, ⟨0, 5, 3, 6⟩, ⟨0, 0, 1, 1⟩]) = some true
    ∧ scoreMediumSpatial ["on", "right"]
        (listAssign [⟨0, 0, 2, 2⟩, ⟨0, 5, 3, 6⟩, ⟨0, 0, 1, 1⟩]) = some false := by
  constructor
  · decide
  · decide

/-- Claim C2 (amended): a ground-truth image at the requested level whose
image id is absent from the prediction mapping is scored false but kept in
the denominator by the spatial and size relation scorers (the attempted
total still counts it), while the counting scorer skips it entirely,
contributing no TP, FP or FN. -/
theorem missing_prediction_handling :
    (∀ (s : GtSample) (rest : List GtSample) (idx : Nat)
        (pred : List (String × PredImg)) (lvl : Int),
        s.level = lvl → pred.lookup (toString idx) = none →
        spatialCounts (s :: rest) idx pred lvl =
          (spatialCounts rest (idx + 1) pred lvl).map (fun p => (p.1, p.2 + 1)))
    ∧ (∀ (s : GtSample) (rest : List GtSample) (idx : Nat)
        (pred : List (String × PredImg)) (lvl : Int),
        s.level = lvl → pred.lookup (toString idx) = none →
        sizeCounts (s :: rest) idx pred lvl =
          (sizeCounts rest (idx + 1) pred lvl).map (fun p => (p.1, p.2 + 1)))
    ∧ (∀ (e : CountEntry) (rest : List CountEntry) (idx : Nat)
        (pred : List (String × CountPredEntry)) (lvl : Int),
        e.level = lvl → pred.lookup (toString idx) = none →
        countingTotals (e :: rest) idx pred lvl = countingTotals rest (idx + 1) pred lvl) := by
  refine ⟨?_, ?_, ?_⟩
  · intro s rest idx pred lvl hlvl hlk
    simp only [spatialCounts, if_pos hlvl, hlk]
    cases hr : spatialCounts rest (idx + 1) pred lvl <;>
      simp [hr, spatialOutcome]
  · intro s rest idx pred lvl hlvl hlk
    simp only [sizeCounts, if_pos hlvl, hlk]
    cases hr : sizeCounts rest (idx + 1) pred lvl <;>
      simp [hr, sizeOutcome]
  · intro e rest idx pred lvl hlvl hlk
    simp [countingTotals, hlvl, hlk]

/-- Witness for C2 on singleton ground truth with empty predictions. -/
theorem missing_prediction_handling_witness :
    spatialCounts [⟨["a", "b"], ["right"], 1⟩] 0 [] 1 =
      (spatialCounts [] 1 [] 1).map (fun p => (p.1, p.2 + 1))
    ∧ sizeCounts [⟨["a", "b"], ["bigger"], 1⟩] 0 [] 1 =
      (sizeCounts [] 1 [] 1).map (fun p => (p.1, p.2 + 1))
    ∧ countingTotals [⟨"cup", 2, "", 0, 1⟩] 0 [] 1 = countingTotals [] 1 [] 1 :=
  ⟨missing_prediction_handling.1 ⟨["a", "b"], ["right"], 1⟩ [] 0 [] 1 rfl rfl,
   missing_prediction_handling.2.1 ⟨["a", "b"], ["bigger"], 1⟩ [] 0 [] 1 rfl rfl,
   missing_prediction_handling.2.2 ⟨"cup", 2, "", 0, 1⟩ [] 0 [] 1 rfl rfl⟩

/-- Counterexample for C2 as stated: two level-1 ground-truth images, the
first with no prediction entry; the relation scorer still counts two
attempted images (denominator 2) with one success, rather than excluding
the missing image from the denominator. -/
theorem missing_prediction_denominator_cex :
    spatialCounts
        [⟨["a", "b"], ["on the left of"], 1⟩, ⟨["a", "b"], ["on the left of"], 1⟩] 0
        [("1", [(0, ⟨"a", ⟨0, 0, 1, 1⟩⟩), (1, ⟨"b", ⟨2, 0, 3, 1⟩⟩)])] 1 = some (1, 2)
    ∧ List.lookup "0" [("1", [(0, (⟨"a", ⟨0, 0, 1, 1⟩⟩ : PredObj)),
        (1, ⟨"b", ⟨2, 0, 3, 1⟩⟩)])] = none := by
  constructor
  · decide
  · decide
